import Mathlib

/-!
Shallow embedding of the timesheet-entry lifecycle core of the
time2cloud front-end (src/pages/TimesheetEntries.tsx, src/types/index.ts),
together with proofs about the Time Encoder, Lock Policy, Filter & Grouping
Engine, Status Transition Controller and Submission Orchestrator.
-/

namespace Time2Cloud

/-! ## Data model (src/types/index.ts) -/

/-- `UserRole` enum from src/types/index.ts. -/
inductive UserRole where
  | CONSULTANT
  | PROJECT_MANAGER
  | ADMIN
  | FINANCE
deriving DecidableEq, Repr

/-- `TimesheetStatus` enum from src/types/index.ts. -/
inductive TimesheetStatus where
  | PENDING
  | APPROVED
  | REJECTED
deriving DecidableEq, Repr

/-- The wire string of a `TimesheetStatus` value. -/
def statusStr : TimesheetStatus → String
  | .PENDING => "PENDING"
  | .APPROVED => "APPROVED"
  | .REJECTED => "REJECTED"

/-- Calendar date, modelling the date-only component `YYYY-MM-DD` that the
code extracts from an entry's ISO date string via `date.split('T')[0]`.
Comparisons the code performs on the year/month/day string components become
numeric comparisons on these fields (ISO strings are zero-padded, so string
equality of components coincides with numeric equality). -/
structure YMD where
  year : ℕ
  month : ℕ
  day : ℕ
deriving DecidableEq, Repr

/-- `TimesheetEntry` from src/types/index.ts (the fields this core reads or
writes; joined objects `user`/`project`/`approver` are display-only and
omitted). `hours` is the decimal-hours number; `createdAt` models the
creation timestamp value used for ordering; optional string fields are
`Option String` with `none` for an absent (undefined/null) value. -/
structure TimesheetEntry where
  id : String
  userId : String
  projectId : String
  date : YMD
  hours : ℚ
  activityType : String
  notes : Option String
  status : TimesheetStatus
  statusDescription : Option String
  approverId : Option String
  approvedAt : Option String
  submissionId : Option String
  createdAt : ℕ
deriving DecidableEq, Repr

/-! ## Time Encoder (TimesheetEntries.tsx lines 577-615) -/

/-- Numeric value of a digit character (models `parseInt` on one digit). -/
def digitVal (c : Char) : ℕ := c.toNat - Char.toNat '0'

/-- Matcher for the regex `^(\d{1,2}):(\d{2})$` used by `timeToDecimal` and
the `hours` schema refinement: 1-2 digits, a colon, exactly 2 digits.
Returns the parsed (hours, minutes) pair exactly when the regex matches. -/
def matchHHMM : List Char → Option (ℕ × ℕ)
  | [a, b, c, d] =>
    if a.isDigit && b == ':' && c.isDigit && d.isDigit then
      some (digitVal a, 10 * digitVal c + digitVal d)
    else none
  | [a, b, c, d, e] =>
    if a.isDigit && b.isDigit && c == ':' && d.isDigit && e.isDigit then
      some (10 * digitVal a + digitVal b, 10 * digitVal d + digitVal e)
    else none
  | _ => none

/-- `timeToDecimal` (lines 591-602): parses `HH:MM`, returns 0 when the
pattern fails or hours > 23 or minutes > 59, else hours + minutes / 60. -/
def timeToDecimal (time : String) : ℚ :=
  match matchHHMM time.data with
  | none => 0
  | some (hours, minutes) =>
    if hours > 23 || minutes > 59 then 0
    else (hours : ℚ) + (minutes : ℚ) / 60

/-- Models `String.prototype.padStart(2, '0')`. -/
def padStart2 (s : String) : String :=
  if s.length < 2 then String.mk (List.replicate (2 - s.length) '0') ++ s else s

/-- `decimalToTime` (lines 605-609): `Math.floor` the hours, `Math.round`
the remaining minutes, zero-pad both to two digits. JavaScript `Math.round`
rounds half toward positive infinity, as does Mathlib `round`. -/
def decimalToTime (decimal : ℚ) : String :=
  let hours : ℤ := ⌊decimal⌋
  let minutes : ℤ := round ((decimal - hours) * 60)
  padStart2 (toString hours) ++ ":" ++ padStart2 (toString minutes)

/-- `sumHoursToTime` (lines 612-615): sum of the entries' decimal hours,
rendered via `decimalToTime`. -/
def sumHoursToTime (entries : List TimesheetEntry) : String :=
  decimalToTime (entries.foldl (fun sum e => sum + e.hours) 0)

/-- The canonical zero-padded rendering of an (hours, minutes) pair: the
output format of `decimalToTime`. -/
def renderHHMM (h m : ℕ) : String :=
  padStart2 (toString h) ++ ":" ++ padStart2 (toString m)

/-! ## Lock Policy (TimesheetEntries.tsx lines 786-797) -/

/-- JavaScript truthiness of an optional string (`!!x`): false for an
absent (undefined/null) value and for the empty string. -/
def truthyStr : Option String → Bool
  | none => false
  | some s => s != ""

/-- `isEntryLocked` (lines 794-797): the consultant is the only
owner-restricted role; for it the entry is locked iff `entry.submissionId`
is truthy. The code reads the acting role from component state
(`isConsultant`); here it is an explicit argument. -/
def isEntryLocked (role : UserRole) (entry : TimesheetEntry) : Bool :=
  if role != UserRole.CONSULTANT then false
  else truthyStr entry.submissionId

/-! ## Guarded entry actions (lines 814-865, 1045-1069) -/

/-- Outcome of a guarded UI action: refused with the alert message shown to
the user, or allowed to proceed. A handler issues no request on refusal. -/
inductive GuardOutcome where
  | refused (message : String)
  | proceed
deriving DecidableEq, Repr

/-- `handleEdit` (lines 814-839): refuse when the entry is locked, then
refuse when a consultant is not the owner; otherwise open the edit form. -/
def handleEdit (role : UserRole) (currentUserId : String)
    (entry : TimesheetEntry) : GuardOutcome :=
  if isEntryLocked role entry then
    .refused "Este lançamento não pode ser editado pois o mês já foi enviado para aprovação"
  else if role == UserRole.CONSULTANT && entry.userId != currentUserId then
    .refused "Você não tem permissão para editar este lançamento"
  else .proceed

/-- `handleDelete` (lines 841-865): same guards; on proceed the user is
asked to confirm and only then is the DELETE issued. -/
def handleDelete (role : UserRole) (currentUserId : String)
    (entry : TimesheetEntry) : GuardOutcome :=
  if isEntryLocked role entry then
    .refused "Este lançamento não pode ser excluído pois o mês já foi enviado para aprovação"
  else if role == UserRole.CONSULTANT && entry.userId != currentUserId then
    .refused "Você não tem permissão para excluir este lançamento"
  else .proceed

/-- `handleDuplicate` (lines 1045-1069): same guards; on proceed the create
form is opened pre-filled. -/
def handleDuplicate (role : UserRole) (currentUserId : String)
    (entry : TimesheetEntry) : GuardOutcome :=
  if isEntryLocked role entry then
    .refused "Este lançamento não pode ser duplicado pois o mês já foi enviado para aprovação"
  else if role == UserRole.CONSULTANT && entry.userId != currentUserId then
    .refused "Você não tem permissão para duplicar este lançamento"
  else .proceed

/-- The entry ids a `handleDelete` outcome can go on to DELETE: none when
refused (the request is issued only after a proceed plus confirmation). -/
def deleteRequests (entry : TimesheetEntry) : GuardOutcome → List String
  | .refused _ => []
  | .proceed => [entry.id]

/-! ## Status Transition Controller (lines 901-949, 1774-1823) -/

/-- The state of the single-entry status-change confirmation modal. -/
structure StatusChangeModal where
  entry : TimesheetEntry
  newStatus : TimesheetStatus
  message : String
deriving Repr

/-- `handleStatusChange` (lines 901-913): a no-op when the selected status
equals the entry's current status; otherwise open the confirmation modal
(the PATCH happens only later, in `confirmStatusChange`). `none` models "no
modal opened". -/
def handleStatusChange (entry : TimesheetEntry) (newStatus : TimesheetStatus) :
    Option StatusChangeModal :=
  if entry.status == newStatus then none
  else some ⟨entry, newStatus, ""⟩

/-- The entry ids a `handleStatusChange` outcome can go on to PATCH:
`confirmStatusChange` runs only from an open modal. -/
def statusChangeRequests : Option StatusChangeModal → List String
  | none => []
  | some modal => [modal.entry.id]

/-- Result of confirming the bulk-action modal with action `delete`
(lines 1798-1811): either the whole batch is blocked, with the alert
reporting the number of locked entries and no DELETE issued, or one DELETE
per selected id is issued. -/
inductive BulkDeleteResult where
  | blocked (lockedCount : ℕ)
  | deletions (ids : List String)
deriving DecidableEq, Repr

/-- The delete branch of the bulk-action modal (lines 1798-1811): re-check
every selected visible entry against the Lock Policy and abort the entire
batch when any is locked, else DELETE every selected id. -/
def bulkDelete (role : UserRole) (allVisibleEntries : List TimesheetEntry)
    (selectedEntries : List String) : BulkDeleteResult :=
  let selectedEntriesList := allVisibleEntries.filter
    (fun e => selectedEntries.contains e.id)
  let lockedEntries := selectedEntriesList.filter (fun e => isEntryLocked role e)
  if lockedEntries.length > 0 then .blocked lockedEntries.length
  else .deletions selectedEntries

/-- The DELETE requests a `bulkDelete` result issues. -/
def bulkDeleteRequests : BulkDeleteResult → List String
  | .blocked _ => []
  | .deletions ids => ids

/-! ## Entry form (lines 625-650, 867-899) -/

/-- The form values validated by `timesheetEntrySchema`. -/
structure EntryFormData where
  userId : String
  projectId : String
  date : YMD
  hours : String
  activityType : String
  notes : String
  status : TimesheetStatus
  statusDescription : String
deriving Repr

/-- The body written by `onSubmit` (lines 867-899) for both create (POST)
and edit (PATCH). -/
structure EntryPayload where
  userId : String
  projectId : String
  date : YMD
  hours : ℚ
  activityType : String
  notes : Option String
  status : TimesheetStatus
  statusDescription : Option String
deriving Repr

/-- Payload construction in `onSubmit` (lines 867-899): a consultant's save
always carries status PENDING, while for other roles `data.status ||
PENDING` resolves to `data.status` (enum values are non-empty strings);
`statusDescription` is attached only when an admin edits an existing entry
with a non-empty message; empty `notes` becomes absent. -/
def buildEntryPayload (role : UserRole) (editingEntry : Option TimesheetEntry)
    (data : EntryFormData) : EntryPayload :=
  { userId := data.userId
    projectId := data.projectId
    date := data.date
    hours := timeToDecimal data.hours
    activityType := data.activityType
    notes := if data.notes != "" then some data.notes else none
    status := if role == UserRole.CONSULTANT then TimesheetStatus.PENDING else data.status
    statusDescription :=
      if role == UserRole.ADMIN && editingEntry.isSome && data.statusDescription != "" then
        some data.statusDescription
      else none }

/-- The `hours` field validation of `baseTimesheetEntrySchema`
(lines 629-639): `z.string().min(1)` then a refinement matching the `HH:MM`
regex with hours in [0,23], minutes in [0,59] and at least one minute of
total duration. -/
def hoursValid (val : String) : Bool :=
  decide (val.length ≥ 1) &&
  (match matchHHMM val.data with
   | none => false
   | some (hours, minutes) =>
     decide (hours ≤ 23) && decide (minutes ≤ 59) &&
       (decide (hours > 0) || decide (minutes > 0)))

/-! ## Submission Orchestrator (lines 970-1043) -/

/-- A monthly submission record as read and written through
`/timesheet-submissions` (the fields this core uses). -/
structure Submission where
  id : String
  userId : String
  year : ℕ
  month : ℕ
  status : String
  submittedAt : String
deriving DecidableEq, Repr

/-- The server-side collections this core reads and writes. The client
works on the collection fetched by `fetchData` and writes back through the
API, so one state models both sides. -/
structure ServerState where
  submissions : List Submission
  entries : List TimesheetEntry
deriving Repr

/-- The lookup predicate of `GET /timesheet-submissions/by-user-month`. -/
def submissionMatches (uid : String) (y m : ℕ) (s : Submission) : Bool :=
  s.userId == uid && s.year == y && s.month == m

/-- An entry of the acting user dated in the target (year, month): the
filter at lines 1020-1026. String comparison of the zero-padded ISO date
components coincides with numeric comparison of their values. -/
def entryInMonth (uid : String) (y m : ℕ) (e : TimesheetEntry) : Bool :=
  e.userId == uid && e.date.year == y && e.date.month == m

/-- `handleRequestApproval` (lines 970-1043) as a transition on the server
state: look up the (user, year, month) submission; PATCH it to SUBMITTED
when found, else POST a new one (`freshId` models the id the server
assigns); then PATCH every one of the acting user's entries of that month —
taken from the full fetched entry collection, not the filtered view — to
reference that submission's id. -/
def handleRequestApproval (uid : String) (y m : ℕ) (freshId now : String)
    (st : ServerState) : ServerState :=
  match st.submissions.find? (submissionMatches uid y m) with
  | some s =>
    { submissions := st.submissions.map fun t =>
        if t.id == s.id then { t with status := "SUBMITTED", submittedAt := now } else t
      entries := st.entries.map fun e =>
        if entryInMonth uid y m e then { e with submissionId := some s.id } else e }
  | none =>
    { submissions := st.submissions ++
        [{ id := freshId, userId := uid, year := y, month := m,
           status := "SUBMITTED", submittedAt := now }]
      entries := st.entries.map fun e =>
        if entryInMonth uid y m e then { e with submissionId := some freshId } else e }

/-! ## Filter & Grouping Engine (lines 1072-1130, 1559) -/

/-- The persisted filter state of the page (`useFilters`): the empty string
means "no filter" for the string-valued filters, matching the JS truthiness
checks; `filterDate` is the optional exact-date filter; `filterMonth` is
the mandatory (year, month) month filter. -/
structure FilterState where
  filterUser : String
  filterProject : String
  filterStatus : String
  filterDate : Option YMD
  filterMonth : ℕ × ℕ
deriving Repr

/-- Chronological comparison of date-only keys, modelling the
`new Date(a).getTime()` comparisons of the sort comparator. -/
def dateLe (a b : YMD) : Bool :=
  a.year < b.year || (a.year == b.year &&
    (a.month < b.month || (a.month == b.month && a.day ≤ b.day)))

/-- Group-key order: most recent date first (the comparator at line 1123). -/
def dateDesc (a b : YMD) : Prop := dateLe b a = true

instance : DecidableRel dateDesc := fun a b =>
  inferInstanceAs (Decidable (dateLe b a = true))

/-- In-group entry order: creation timestamp descending (line 1126). -/
def createdDesc (a b : TimesheetEntry) : Prop := b.createdAt ≤ a.createdAt

instance : DecidableRel createdDesc := fun a b =>
  inferInstanceAs (Decidable (b.createdAt ≤ a.createdAt))

/-- One rendered day group of the grouped view. -/
structure DayGroup where
  date : YMD
  entries : List TimesheetEntry
deriving Repr

/-- The mandatory month filter (lines 1076-1084): keep entries whose
date-only year/month components equal the active filter month. -/
def monthFiltered (filters : FilterState) (entries : List TimesheetEntry) :
    List TimesheetEntry :=
  entries.filter fun e =>
    e.date.year == filters.filterMonth.1 && e.date.month == filters.filterMonth.2

/-- The `if (filters.filterUser)` step (lines 1087-1089). -/
def applyUserFilter (filters : FilterState) (l : List TimesheetEntry) :
    List TimesheetEntry :=
  if filters.filterUser != "" then
    l.filter (fun e => e.userId == filters.filterUser)
  else l

/-- The `if (filters.filterProject)` step (lines 1090-1092). -/
def applyProjectFilter (filters : FilterState) (l : List TimesheetEntry) :
    List TimesheetEntry :=
  if filters.filterProject != "" then
    l.filter (fun e => e.projectId == filters.filterProject)
  else l

/-- The `if (filters.filterStatus)` step (lines 1093-1095). -/
def applyStatusFilter (filters : FilterState) (l : List TimesheetEntry) :
    List TimesheetEntry :=
  if filters.filterStatus != "" then
    l.filter (fun e => statusStr e.status == filters.filterStatus)
  else l

/-- The `if (filters.filterDate)` step (lines 1096-1103). -/
def applyDateFilter (filters : FilterState) (l : List TimesheetEntry) :
    List TimesheetEntry :=
  match filters.filterDate with
  | some d => l.filter (fun e => e.date == d)
  | none => l

/-- The role branch of the filter (lines 1086-1107): ADMIN additionally
applies the optional user/project/status/exact-date filters when truthy;
CONSULTANT is hard-filtered to own entries; any other role keeps the
month-filtered collection unchanged. -/
def roleFiltered (role : UserRole) (currentUserId : String)
    (filters : FilterState) (entries : List TimesheetEntry) :
    List TimesheetEntry :=
  if role == UserRole.ADMIN then
    applyDateFilter filters (applyStatusFilter filters (applyProjectFilter filters
      (applyUserFilter filters (monthFiltered filters entries))))
  else if role == UserRole.CONSULTANT then
    (monthFiltered filters entries).filter (fun e => e.userId == currentUserId)
  else
    monthFiltered filters entries

/-- `filteredAndGroupedEntries` (lines 1072-1130): group the filtered
entries by date-only key, order the groups most-recent-first and each
group's entries by creation timestamp descending. The JS object keyed by
date collects, in iteration order, exactly the filtered entries with that
key (`filtered.filter (date = key)`); JavaScript's stable
`Array.prototype.sort` is modelled by the stable `List.insertionSort`
(group keys are pairwise distinct, so the pre-sort key order cannot affect
the sorted result). -/
def filteredAndGroupedEntries (role : UserRole) (currentUserId : String)
    (filters : FilterState) (entries : List TimesheetEntry) : List DayGroup :=
  let filtered := roleFiltered role currentUserId filters entries
  let keys := (filtered.map (fun e => e.date)).dedup
  let sortedKeys := keys.insertionSort dateDesc
  sortedKeys.map fun d =>
    ⟨d, (filtered.filter (fun e => e.date == d)).insertionSort createdDesc⟩

/-- The per-day total label rendered in each group header (line 1559). -/
def dayTotalLabel (g : DayGroup) : String := sumHoursToTime g.entries

/-- The submission id `handleRequestApproval` writes onto the month's
entries: the id of the record the lookup found, or the id the server
assigned to the freshly created one. -/
def requestApprovalTargetId (uid : String) (y m : ℕ) (freshId : String)
    (st : ServerState) : String :=
  match st.submissions.find? (submissionMatches uid y m) with
  | some s => s.id
  | none => freshId

instance : IsTotal YMD dateDesc :=
  ⟨by intro a b; simp [dateDesc, dateLe]; omega⟩

instance : IsTrans YMD dateDesc :=
  ⟨by intro a b c h1 h2; simp [dateDesc, dateLe] at h1 h2 ⊢; omega⟩

instance : IsTotal TimesheetEntry createdDesc :=
  ⟨by intro a b; simp only [createdDesc]; omega⟩

instance : IsTrans TimesheetEntry createdDesc :=
  ⟨by intro a b c h1 h2; simp only [createdDesc] at h1 h2 ⊢; omega⟩

/-! ## Concrete fixtures used to instantiate the theorems -/

/-- A baseline unlocked pending entry. -/
def sampleEntry : TimesheetEntry :=
  { id := "e1", userId := "u1", projectId := "p1", date := ⟨2024, 3, 1⟩,
    hours := 8, activityType := "dev", notes := none, status := .PENDING,
    statusDescription := none, approverId := none, approvedAt := none,
    submissionId := none, createdAt := 1 }

/-- An entry locked by association to a submission. -/
def lockedEntry : TimesheetEntry :=
  { sampleEntry with id := "e2", submissionId := some "sub1", createdAt := 2 }

/-- An unlocked entry owned by a different user. -/
def otherUserEntry : TimesheetEntry :=
  { sampleEntry with id := "e3", userId := "u2", createdAt := 3 }

/-- A second entry of the baseline user dated 2024-03-01. -/
def sampleEntryB : TimesheetEntry :=
  { sampleEntry with id := "e4", createdAt := 4 }

/-- An entry of the baseline user dated 2024-03-02. -/
def sampleEntryC : TimesheetEntry :=
  { sampleEntry with id := "e5", date := ⟨2024, 3, 2⟩, createdAt := 5 }

/-- A filter state with only the mandatory month filter active. -/
def monthOnlyFilters : FilterState :=
  { filterUser := "", filterProject := "", filterStatus := "",
    filterDate := none, filterMonth := (2024, 3) }

/-- A filter state with the user filter active. -/
def userFilters : FilterState :=
  { monthOnlyFilters with filterUser := "u1" }

/-- A server state with one existing submission for ("u1", 2024, 3). -/
def sampleServerState : ServerState :=
  { submissions := [{ id := "sub1", userId := "u1", year := 2024, month := 3,
                      status := "CHANGES_REQUESTED", submittedAt := "t0" }],
    entries := [sampleEntry, sampleEntryC, otherUserEntry] }

/-! ## Time Encoder lemmas -/

lemma padStart2_toString_data :
    ∀ n : ℕ, n < 100 →
      (padStart2 (toString n)).data = [Nat.digitChar (n / 10), Nat.digitChar (n % 10)] := by
  decide

lemma digitChar_isDigit : ∀ x : ℕ, x < 10 → (Nat.digitChar x).isDigit = true := by
  decide

lemma digitVal_digitChar : ∀ x : ℕ, x < 10 → digitVal (Nat.digitChar x) = x := by
  decide

lemma renderHHMM_data (h m : ℕ) (hh : h < 100) (hm : m < 100) :
    (renderHHMM h m).data =
      [Nat.digitChar (h / 10), Nat.digitChar (h % 10), ':',
       Nat.digitChar (m / 10), Nat.digitChar (m % 10)] := by
  have h1 := padStart2_toString_data h hh
  have h2 := padStart2_toString_data m hm
  simp [renderHHMM, String.data_append, h1, h2]

lemma matchHHMM_renderHHMM (h m : ℕ) (hh : h < 100) (hm : m < 100) :
    matchHHMM (renderHHMM h m).data = some (h, m) := by
  rw [renderHHMM_data h m hh hm]
  have d1 := digitChar_isDigit (h / 10) (by omega)
  have d2 := digitChar_isDigit (h % 10) (by omega)
  have d3 := digitChar_isDigit (m / 10) (by omega)
  have d4 := digitChar_isDigit (m % 10) (by omega)
  have v1 := digitVal_digitChar (h / 10) (by omega)
  have v2 := digitVal_digitChar (h % 10) (by omega)
  have v3 := digitVal_digitChar (m / 10) (by omega)
  have v4 := digitVal_digitChar (m % 10) (by omega)
  simp [matchHHMM, d1, d2, d3, d4, v1, v2, v3, v4]
  omega

lemma timeToDecimal_renderHHMM (h m : ℕ) (hh : h ≤ 23) (hm : m ≤ 59) :
    timeToDecimal (renderHHMM h m) = (h : ℚ) + (m : ℚ) / 60 := by
  rw [timeToDecimal, matchHHMM_renderHHMM h m (by omega) (by omega)]
  simp
  omega

lemma decimalToTime_eq_renderHHMM (h m : ℕ) (hm : m ≤ 59) :
    decimalToTime ((h : ℚ) + (m : ℚ) / 60) = renderHHMM h m := by
  have hfloor : ⌊(h : ℚ) + (m : ℚ) / 60⌋ = (h : ℤ) := by
    rw [Int.floor_eq_iff]
    constructor
    · have h0 : (0:ℚ) ≤ (m:ℚ)/60 := by positivity
      push_cast
      linarith
    · have h1 : (m : ℚ) / 60 < 1 := by
        rw [div_lt_one (by norm_num)]
        exact_mod_cast Nat.lt_of_le_of_lt hm (by norm_num)
      push_cast
      linarith
  have hround : round ((((h : ℚ) + (m : ℚ) / 60) - ((h : ℤ) : ℚ)) * 60) = (m : ℤ) := by
    have : (((h : ℚ) + (m : ℚ) / 60) - ((h : ℤ) : ℚ)) * 60 = (m : ℚ) := by
      push_cast
      ring
    rw [this]
    exact_mod_cast round_natCast m
  rw [decimalToTime]
  rw [hfloor, hround]
  rfl


/-! ## Claim theorems -/

/-- C2 (Lock Policy): `isEntryLocked` is false for every non-consultant
role; for the consultant role it is true iff the entry's `submissionId` is
set and non-empty; and it is independent of the entry's `status` (the live
Submission record is not consulted at all — it is not even an input). -/
theorem lock_policy_submission_presence (role : UserRole) (entry : TimesheetEntry) :
    (role ≠ UserRole.CONSULTANT → isEntryLocked role entry = false) ∧
    (role = UserRole.CONSULTANT →
      (isEntryLocked role entry = true ↔
        ∃ s, entry.submissionId = some s ∧ s ≠ "")) ∧
    (∀ st, isEntryLocked role { entry with status := st } = isEntryLocked role entry) := by
  refine ⟨?_, ?_, ?_⟩
  · intro h
    simp [isEntryLocked, h]
  · intro h
    subst h
    simp only [isEntryLocked, bne_self_eq_false, if_neg]
    cases hs : entry.submissionId with
    | none => simp [truthyStr, hs]
    | some s => simp [truthyStr, hs]
  · intro st
    simp [isEntryLocked, truthyStr]

/-- Witness for C2 at a concrete locked entry. -/
theorem lock_policy_submission_presence_witness :
    isEntryLocked UserRole.CONSULTANT lockedEntry = true :=
  ((lock_policy_submission_presence UserRole.CONSULTANT lockedEntry).2.1 rfl).mpr
    ⟨"sub1", rfl, by decide⟩

/-- C8 (Status change no-op): selecting the entry's current status opens no
confirmation modal and triggers no PATCH request. -/
theorem status_change_noop (entry : TimesheetEntry) (newStatus : TimesheetStatus)
    (h : newStatus = entry.status) :
    handleStatusChange entry newStatus = none ∧
    statusChangeRequests (handleStatusChange entry newStatus) = [] := by
  subst h
  simp [handleStatusChange, statusChangeRequests]

/-- Witness for C8 at a concrete entry. -/
theorem status_change_noop_witness :
    handleStatusChange sampleEntry TimesheetStatus.PENDING = none ∧
    statusChangeRequests (handleStatusChange sampleEntry TimesheetStatus.PENDING) = [] :=
  status_change_noop sampleEntry TimesheetStatus.PENDING rfl

/-- C10 (implicit): every create or edit save performed by a consultant
carries status PENDING in the persisted payload, for every form value and
every entry being edited (so editing an APPROVED or REJECTED entry resets
it to PENDING). -/
theorem consultant_save_forces_pending (editingEntry : Option TimesheetEntry)
    (data : EntryFormData) :
    (buildEntryPayload UserRole.CONSULTANT editingEntry data).status =
      TimesheetStatus.PENDING := by
  simp [buildEntryPayload]

/-- C5 (Ownership guard): a consultant invoking edit, delete or duplicate
on an entry whose `userId` differs from their own is refused with a
user-visible message, and the refused delete issues no request. -/
theorem ownership_guard (currentUserId : String) (entry : TimesheetEntry)
    (hne : entry.userId ≠ currentUserId) :
    (∃ msg, handleEdit UserRole.CONSULTANT currentUserId entry = .refused msg) ∧
    (∃ msg, handleDelete UserRole.CONSULTANT currentUserId entry = .refused msg) ∧
    (∃ msg, handleDuplicate UserRole.CONSULTANT currentUserId entry = .refused msg) ∧
    deleteRequests entry (handleDelete UserRole.CONSULTANT currentUserId entry) = [] := by
  have hb : (entry.userId != currentUserId) = true := by
    simp [bne_iff_ne, hne]
  have hdel : ∃ msg, handleDelete UserRole.CONSULTANT currentUserId entry = .refused msg := by
    cases hL : isEntryLocked UserRole.CONSULTANT entry with
    | true =>
      exact ⟨"Este lançamento não pode ser excluído pois o mês já foi enviado para aprovação",
        by simp [handleDelete, hL]⟩
    | false =>
      exact ⟨"Você não tem permissão para excluir este lançamento",
        by simp [handleDelete, hL, hb]⟩
  refine ⟨?_, hdel, ?_, ?_⟩
  · cases hL : isEntryLocked UserRole.CONSULTANT entry with
    | true =>
      exact ⟨"Este lançamento não pode ser editado pois o mês já foi enviado para aprovação",
        by simp [handleEdit, hL]⟩
    | false =>
      exact ⟨"Você não tem permissão para editar este lançamento",
        by simp [handleEdit, hL, hb]⟩
  · cases hL : isEntryLocked UserRole.CONSULTANT entry with
    | true =>
      exact ⟨"Este lançamento não pode ser duplicado pois o mês já foi enviado para aprovação",
        by simp [handleDuplicate, hL]⟩
    | false =>
      exact ⟨"Você não tem permissão para duplicar este lançamento",
        by simp [handleDuplicate, hL, hb]⟩
  · obtain ⟨msg, hmsg⟩ := hdel
    rw [hmsg]
    rfl

/-- Witness for C5: acting user "u1", entry owned by "u2". -/
theorem ownership_guard_witness :
    (∃ msg, handleEdit UserRole.CONSULTANT "u1" otherUserEntry = .refused msg) ∧
    (∃ msg, handleDelete UserRole.CONSULTANT "u1" otherUserEntry = .refused msg) ∧
    (∃ msg, handleDuplicate UserRole.CONSULTANT "u1" otherUserEntry = .refused msg) ∧
    deleteRequests otherUserEntry (handleDelete UserRole.CONSULTANT "u1" otherUserEntry) = [] :=
  ownership_guard "u1" otherUserEntry (by decide)

/-- C1 fails as stated: "8:30" matches the accepted pattern (1-digit hour,
hours in [0,23], minutes in [0,59]) but does not round-trip —
`decimalToTime` re-renders it zero-padded as "08:30". -/
theorem time_roundtrip_cex :
    decimalToTime (timeToDecimal "8:30") = "08:30" ∧
    decimalToTime (timeToDecimal "8:30") ≠ "8:30" := by
  have hm : matchHHMM ("8:30" : String).data = some (8, 30) := by decide
  have h1 : timeToDecimal "8:30" = (8 : ℚ) + (30 : ℚ) / 60 := by
    rw [timeToDecimal, hm]
    norm_num
  have h2 : decimalToTime (timeToDecimal "8:30") = renderHHMM 8 30 := by
    rw [h1]
    exact_mod_cast decimalToTime_eq_renderHHMM 8 30 (by norm_num)
  have h3 : renderHHMM 8 30 = "08:30" := by decide
  rw [h2, h3]
  exact ⟨rfl, by decide⟩

/-- C1 amended (round-trip on the canonical form): for every hours value in
[0,23] and minutes value in [0,59], the zero-padded `HH:MM` rendering —
`decimalToTime`'s own output format — round-trips:
`decimalToTime (timeToDecimal s) = s` for `s = renderHHMM h m`. -/
theorem time_roundtrip_padded (h m : ℕ) (hh : h ≤ 23) (hm : m ≤ 59) :
    decimalToTime (timeToDecimal (renderHHMM h m)) = renderHHMM h m := by
  rw [timeToDecimal_renderHHMM h m hh hm, decimalToTime_eq_renderHHMM h m hm]

/-- Witness for the amended C1 at 08:30. -/
theorem time_roundtrip_padded_witness :
    decimalToTime (timeToDecimal "08:30") = "08:30" := by
  have h := time_roundtrip_padded 8 30 (by norm_num) (by norm_num)
  have hr : renderHHMM 8 30 = "08:30" := by decide
  rw [hr] at h
  exact h

/-- C3 (Bulk delete abort): whenever the selection contains a locked entry
(among the visible entries the selection is drawn from), confirming the
bulk delete issues zero DELETE requests and reports the count of blocked
(selected and locked) entries. -/
theorem bulk_delete_abort (role : UserRole) (visible : List TimesheetEntry)
    (selected : List String)
    (hlock : ∃ e ∈ visible, selected.contains e.id = true ∧ isEntryLocked role e = true) :
    bulkDelete role visible selected =
      .blocked ((visible.filter
        (fun e => isEntryLocked role e && selected.contains e.id)).length) ∧
    bulkDeleteRequests (bulkDelete role visible selected) = [] := by
  obtain ⟨e, he, hsel, hL⟩ := hlock
  have hff : (visible.filter (fun e => selected.contains e.id)).filter
      (fun e => isEntryLocked role e) =
      visible.filter (fun e => isEntryLocked role e && selected.contains e.id) := by
    rw [List.filter_filter]
  have hmem : e ∈ visible.filter
      (fun e => isEntryLocked role e && selected.contains e.id) := by
    rw [List.mem_filter]
    exact ⟨he, by rw [hL, hsel]; rfl⟩
  have hpos : 0 < (visible.filter
      (fun e => isEntryLocked role e && selected.contains e.id)).length :=
    List.length_pos.mpr (List.ne_nil_of_mem hmem)
  constructor
  · rw [bulkDelete]
    simp only [hff]
    rw [if_pos hpos]
  · rw [bulkDelete]
    simp only [hff]
    rw [if_pos hpos]
    rfl

/-- Witness for C3: one locked and one unlocked selected entry — zero
DELETEs, exactly one blocked entry reported. -/
theorem bulk_delete_abort_witness :
    bulkDelete UserRole.CONSULTANT [sampleEntry, lockedEntry] ["e1", "e2"] =
      .blocked 1 ∧
    bulkDeleteRequests
      (bulkDelete UserRole.CONSULTANT [sampleEntry, lockedEntry] ["e1", "e2"]) = [] := by
  have h := bulk_delete_abort UserRole.CONSULTANT [sampleEntry, lockedEntry] ["e1", "e2"]
    ⟨lockedEntry, by decide, by decide, by decide⟩
  have hc : (([sampleEntry, lockedEntry].filter
      (fun e => isEntryLocked UserRole.CONSULTANT e && ["e1", "e2"].contains e.id)).length) = 1 := by
    decide
  rw [hc] at h
  exact h

lemma matchHHMM_lengths {cs : List Char} {p : ℕ × ℕ}
    (h : matchHHMM cs = some p) : cs.length = 4 ∨ cs.length = 5 := by
  match cs with
  | [] => simp [matchHHMM] at h
  | [a] => simp [matchHHMM] at h
  | [a, b] => simp [matchHHMM] at h
  | [a, b, c] => simp [matchHHMM] at h
  | [a, b, c, d] => left; rfl
  | [a, b, c, d, e] => right; rfl
  | a :: b :: c :: d :: e :: f :: rest => simp [matchHHMM] at h

/-- C9 (Duration validity): the entry-form hours validation rejects "00:00"
and "", accepts "00:01", and in general accepts exactly the strings
matching the `HH:MM` pattern whose hours are in [0,23], minutes in [0,59]
and total duration strictly positive. -/
theorem duration_validity :
    hoursValid "00:00" = false ∧ hoursValid "" = false ∧
    hoursValid "00:01" = true ∧
    (∀ s : String, hoursValid s = true ↔
      ∃ h m, matchHHMM s.data = some (h, m) ∧ h ≤ 23 ∧ m ≤ 59 ∧ 0 < h + m) := by
  refine ⟨by decide, by decide, by decide, ?_⟩
  intro s
  unfold hoursValid
  cases hm : matchHHMM s.data with
  | none =>
    simp only [Bool.and_false, Bool.false_eq_true, false_iff]
    rintro ⟨h, m, hsome, -⟩
    exact Option.noConfusion hsome
  | some p =>
    obtain ⟨h, m⟩ := p
    have hlen : s.length = 4 ∨ s.length = 5 := matchHHMM_lengths hm
    have h1 : decide (s.length ≥ 1) = true := by
      rcases hlen with h4 | h5
      · simp [h4]
      · simp [h5]
    simp only [h1, Bool.true_and]
    constructor
    · intro hb
      simp only [Bool.and_eq_true, Bool.or_eq_true, decide_eq_true_eq] at hb
      exact ⟨h, m, rfl, hb.1.1, hb.1.2, by omega⟩
    · rintro ⟨h2, m2, hsome, hh, hm2, hpos⟩
      obtain ⟨rfl, rfl⟩ : h = h2 ∧ m = m2 := by
        have := Option.some.inj hsome
        exact ⟨congrArg Prod.fst this, congrArg Prod.snd this⟩
      simp only [Bool.and_eq_true, Bool.or_eq_true, decide_eq_true_eq]
      exact ⟨⟨hh, hm2⟩, by omega⟩

/-- C4 (Submission idempotent targeting): under the server invariant of at
most one Submission per (user, year, month), requesting approval leaves
exactly one matching Submission — updating the existing one (same
collection size) or creating one when none exists (size + 1) — with status
SUBMITTED, and every one of the acting user's entries dated in that month
(drawn from the full entry collection) ends up referencing that
submission's id. -/
theorem submission_idempotent_targeting (uid : String) (y mo : ℕ)
    (freshId now : String) (st : ServerState)
    (hinv : (st.submissions.filter (submissionMatches uid y mo)).length ≤ 1) :
    ((handleRequestApproval uid y mo freshId now st).submissions.filter
        (submissionMatches uid y mo)).length = 1 ∧
    ((st.submissions.find? (submissionMatches uid y mo)).isSome →
      (handleRequestApproval uid y mo freshId now st).submissions.length =
        st.submissions.length) ∧
    (st.submissions.find? (submissionMatches uid y mo) = none →
      (handleRequestApproval uid y mo freshId now st).submissions.length =
        st.submissions.length + 1) ∧
    (∃ s ∈ (handleRequestApproval uid y mo freshId now st).submissions,
      submissionMatches uid y mo s = true ∧
      s.id = requestApprovalTargetId uid y mo freshId st ∧
      s.status = "SUBMITTED") ∧
    (∀ e ∈ (handleRequestApproval uid y mo freshId now st).entries,
      entryInMonth uid y mo e = true →
      e.submissionId = some (requestApprovalTargetId uid y mo freshId st)) := by
  cases hf : st.submissions.find? (submissionMatches uid y mo) with
  | some s =>
    have hps : submissionMatches uid y mo s = true := List.find?_some hf
    have hmems : s ∈ st.submissions := List.mem_of_find?_eq_some hf
    have hpres : ∀ t : Submission, submissionMatches uid y mo
        (if t.id == s.id then { t with status := "SUBMITTED", submittedAt := now } else t) =
        submissionMatches uid y mo t := by
      intro t
      by_cases h : t.id == s.id <;> simp [h, submissionMatches]
    have hcount : ((st.submissions.map (fun t =>
        if t.id == s.id then { t with status := "SUBMITTED", submittedAt := now } else t)).filter
          (submissionMatches uid y mo)).length =
        (st.submissions.filter (submissionMatches uid y mo)).length := by
      rw [List.filter_map, List.length_map]
      congr 1
      apply List.filter_congr
      intro x _
      exact hpres x
    have hge : 1 ≤ (st.submissions.filter (submissionMatches uid y mo)).length := by
      have hmf : s ∈ st.submissions.filter (submissionMatches uid y mo) :=
        List.mem_filter.mpr ⟨hmems, hps⟩
      exact List.length_pos.mpr (List.ne_nil_of_mem hmf)
    refine ⟨?_, ?_, ?_, ?_, ?_⟩
    · simp only [handleRequestApproval, hf]
      rw [hcount]
      omega
    · intro _
      simp only [handleRequestApproval, hf]
      rw [List.length_map]
    · intro hnone
      exact Option.noConfusion hnone
    · refine ⟨{ s with status := "SUBMITTED", submittedAt := now }, ?_, ?_, ?_, rfl⟩
      · simp only [handleRequestApproval, hf]
        have : (fun t => if t.id == s.id then
            { t with status := "SUBMITTED", submittedAt := now } else t) s =
            { s with status := "SUBMITTED", submittedAt := now } := by
          simp
        rw [← this]
        exact List.mem_map_of_mem _ hmems
      · simp only [submissionMatches] at hps ⊢
        exact hps
      · simp [requestApprovalTargetId, hf]
    · intro e he hin
      simp only [handleRequestApproval, hf] at he
      rw [List.mem_map] at he
      obtain ⟨e0, _, rfl⟩ := he
      by_cases h0 : entryInMonth uid y mo e0 = true
      · simp only [h0, if_true]
        simp [requestApprovalTargetId, hf]
      · rw [if_neg h0] at hin
        exact absurd hin h0
  | none =>
    have hnil : st.submissions.filter (submissionMatches uid y mo) = [] := by
      rw [List.filter_eq_nil_iff]
      intro x hx
      exact List.find?_eq_none.mp hf x hx
    have hnew : submissionMatches uid y mo
        ⟨freshId, uid, y, mo, "SUBMITTED", now⟩ = true := by
      simp [submissionMatches]
    refine ⟨?_, ?_, ?_, ?_, ?_⟩
    · simp only [handleRequestApproval, hf]
      rw [List.filter_append, hnil]
      simp [hnew]
    · intro hsome
      simp at hsome
    · intro _
      simp only [handleRequestApproval, hf]
      rw [List.length_append]
      rfl
    · refine ⟨⟨freshId, uid, y, mo, "SUBMITTED", now⟩, ?_, hnew, ?_, rfl⟩
      · simp only [handleRequestApproval, hf]
        exact List.mem_append_right _ (List.mem_singleton.mpr rfl)
      · simp [requestApprovalTargetId, hf]
    · intro e he hin
      simp only [handleRequestApproval, hf] at he
      rw [List.mem_map] at he
      obtain ⟨e0, _, rfl⟩ := he
      by_cases h0 : entryInMonth uid y mo e0 = true
      · simp only [h0, if_true]
        simp [requestApprovalTargetId, hf]
      · rw [if_neg h0] at hin
        exact absurd hin h0

/-- Witness for C4 on a concrete state with an existing submission. -/
theorem submission_idempotent_targeting_witness :
    ((handleRequestApproval "u1" 2024 3 "sub2" "t1" sampleServerState).submissions.filter
        (submissionMatches "u1" 2024 3)).length = 1 ∧
    (∀ e ∈ (handleRequestApproval "u1" 2024 3 "sub2" "t1" sampleServerState).entries,
      entryInMonth "u1" 2024 3 e = true →
      e.submissionId = some (requestApprovalTargetId "u1" 2024 3 "sub2" sampleServerState)) := by
  have h := submission_idempotent_targeting "u1" 2024 3 "sub2" "t1" sampleServerState (by decide)
  exact ⟨h.1, h.2.2.2.2⟩

lemma filteredAndGroupedEntries_eq (role : UserRole) (uid : String)
    (filters : FilterState) (entries : List TimesheetEntry) :
    filteredAndGroupedEntries role uid filters entries =
      (((roleFiltered role uid filters entries).map (fun e => e.date)).dedup.insertionSort
          dateDesc).map
        (fun d => ⟨d, ((roleFiltered role uid filters entries).filter
          (fun e => e.date == d)).insertionSort createdDesc⟩) := rfl

/-- C6 (Month grouping determinism): the grouped view has one group per
distinct date of the filtered entries, group dates strictly descending,
each group holding exactly the filtered entries of its date ordered by
creation timestamp descending, day totals rendered as the `HH:MM` rendering
of the sum of the group's decimal hours; and concretely entries dated
2024-03-01, 2024-03-01, 2024-03-02 yield two groups ordered
[2024-03-02, 2024-03-01] with counts 1 and 2. -/
theorem month_grouping_determinism (role : UserRole) (uid : String)
    (filters : FilterState) (entries : List TimesheetEntry) :
    List.Pairwise (fun g1 g2 : DayGroup => dateDesc g1.date g2.date ∧ g1.date ≠ g2.date)
      (filteredAndGroupedEntries role uid filters entries) ∧
    (∀ g ∈ filteredAndGroupedEntries role uid filters entries, ∀ e,
      e ∈ g.entries ↔ (e ∈ roleFiltered role uid filters entries ∧ e.date = g.date)) ∧
    (∀ e ∈ roleFiltered role uid filters entries,
      ∃ g ∈ filteredAndGroupedEntries role uid filters entries, g.date = e.date) ∧
    (∀ g ∈ filteredAndGroupedEntries role uid filters entries,
      List.Pairwise createdDesc g.entries) ∧
    (∀ g ∈ filteredAndGroupedEntries role uid filters entries,
      dayTotalLabel g = decimalToTime (g.entries.foldl (fun s e => s + e.hours) 0)) ∧
    ((filteredAndGroupedEntries UserRole.FINANCE "u1" monthOnlyFilters
        [sampleEntry, sampleEntryB, sampleEntryC]).map
      (fun g => (g.date, g.entries.length)) =
      [(⟨2024, 3, 2⟩, 1), (⟨2024, 3, 1⟩, 2)]) := by
  refine ⟨?_, ?_, ?_, ?_, ?_, by decide⟩
  · rw [filteredAndGroupedEntries_eq, List.pairwise_map]
    have hs : List.Pairwise dateDesc
        (((roleFiltered role uid filters entries).map (fun e => e.date)).dedup.insertionSort
          dateDesc) :=
      List.sorted_insertionSort dateDesc _
    have hnd : (((roleFiltered role uid filters entries).map
        (fun e => e.date)).dedup.insertionSort dateDesc).Nodup :=
      ((List.perm_insertionSort dateDesc _).nodup_iff).mpr (List.nodup_dedup _)
    exact hs.and hnd
  · intro g hg e
    rw [filteredAndGroupedEntries_eq, List.mem_map] at hg
    obtain ⟨d, _, rfl⟩ := hg
    simp [List.mem_insertionSort, List.mem_filter]
  · intro e he
    refine ⟨⟨e.date, ((roleFiltered role uid filters entries).filter
      (fun x => x.date == e.date)).insertionSort createdDesc⟩, ?_, rfl⟩
    rw [filteredAndGroupedEntries_eq]
    apply List.mem_map_of_mem
    rw [List.mem_insertionSort]
    exact List.mem_dedup.mpr (List.mem_map_of_mem _ he)
  · intro g hg
    rw [filteredAndGroupedEntries_eq, List.mem_map] at hg
    obtain ⟨d, _, rfl⟩ := hg
    exact List.sorted_insertionSort createdDesc _
  · intro g _
    rfl

/-- Witness for C6 applying the theorem at a concrete collection. -/
theorem month_grouping_determinism_witness :
    (filteredAndGroupedEntries UserRole.FINANCE "u1" monthOnlyFilters
        [sampleEntry, sampleEntryB, sampleEntryC]).map
      (fun g => (g.date, g.entries.length)) =
      [(⟨2024, 3, 2⟩, 1), (⟨2024, 3, 1⟩, 2)] :=
  (month_grouping_determinism UserRole.FINANCE "u1" monthOnlyFilters
    [sampleEntry, sampleEntryB, sampleEntryC]).2.2.2.2.2

lemma mem_applyUserFilter {filters : FilterState} {l : List TimesheetEntry}
    {e : TimesheetEntry} (h : e ∈ applyUserFilter filters l) :
    e ∈ l ∧ (filters.filterUser ≠ "" → e.userId = filters.filterUser) := by
  unfold applyUserFilter at h
  by_cases hc : filters.filterUser = ""
  · rw [if_neg (by simp [hc])] at h
    exact ⟨h, fun hne => absurd hc hne⟩
  · rw [if_pos (by simp [hc])] at h
    rcases List.mem_filter.mp h with ⟨h1, h2⟩
    exact ⟨h1, fun _ => by simpa using h2⟩

lemma mem_applyProjectFilter {filters : FilterState} {l : List TimesheetEntry}
    {e : TimesheetEntry} (h : e ∈ applyProjectFilter filters l) :
    e ∈ l ∧ (filters.filterProject ≠ "" → e.projectId = filters.filterProject) := by
  unfold applyProjectFilter at h
  by_cases hc : filters.filterProject = ""
  · rw [if_neg (by simp [hc])] at h
    exact ⟨h, fun hne => absurd hc hne⟩
  · rw [if_pos (by simp [hc])] at h
    rcases List.mem_filter.mp h with ⟨h1, h2⟩
    exact ⟨h1, fun _ => by simpa using h2⟩

lemma mem_applyStatusFilter {filters : FilterState} {l : List TimesheetEntry}
    {e : TimesheetEntry} (h : e ∈ applyStatusFilter filters l) :
    e ∈ l ∧ (filters.filterStatus ≠ "" → statusStr e.status = filters.filterStatus) := by
  unfold applyStatusFilter at h
  by_cases hc : filters.filterStatus = ""
  · rw [if_neg (by simp [hc])] at h
    exact ⟨h, fun hne => absurd hc hne⟩
  · rw [if_pos (by simp [hc])] at h
    rcases List.mem_filter.mp h with ⟨h1, h2⟩
    exact ⟨h1, fun _ => by simpa using h2⟩

lemma mem_applyDateFilter {filters : FilterState} {l : List TimesheetEntry}
    {e : TimesheetEntry} (h : e ∈ applyDateFilter filters l) :
    e ∈ l ∧ (∀ d, filters.filterDate = some d → e.date = d) := by
  unfold applyDateFilter at h
  cases hd : filters.filterDate with
  | none =>
    rw [hd] at h
    refine ⟨h, ?_⟩
    intro d hdd
    exact Option.noConfusion hdd
  | some d0 =>
    rw [hd] at h
    rcases List.mem_filter.mp h with ⟨h1, h2⟩
    refine ⟨h1, ?_⟩
    intro d hdd
    obtain rfl := Option.some.inj hdd
    simpa using h2

/-- C7 fails as stated: the optional user filter is present (non-empty) but
a PROJECT_MANAGER still sees an entry of another user — only ADMIN applies
the optional filters. -/
theorem elevated_filtering_cex :
    userFilters.filterUser = "u1" ∧ otherUserEntry.userId = "u2" ∧
    (filteredAndGroupedEntries UserRole.PROJECT_MANAGER "u3" userFilters
        [otherUserEntry]).map (fun g => g.entries.map (fun e => e.userId)) =
      [["u2"]] := by
  exact ⟨rfl, rfl, by decide⟩

/-- C7 amended: only the ADMIN role applies the optional
user/project/status/exact-date filters; the other elevated roles
(PROJECT_MANAGER, FINANCE) receive the month-filtered collection unchanged,
while every entry an ADMIN sees satisfies each optional filter that is
present. -/
theorem elevated_filtering_admin_only (uid : String) (filters : FilterState)
    (entries : List TimesheetEntry) :
    (∀ role, (role = UserRole.PROJECT_MANAGER ∨ role = UserRole.FINANCE) →
      roleFiltered role uid filters entries = monthFiltered filters entries) ∧
    (∀ e ∈ roleFiltered UserRole.ADMIN uid filters entries,
      (filters.filterUser ≠ "" → e.userId = filters.filterUser) ∧
      (filters.filterProject ≠ "" → e.projectId = filters.filterProject) ∧
      (filters.filterStatus ≠ "" → statusStr e.status = filters.filterStatus) ∧
      (∀ d, filters.filterDate = some d → e.date = d)) := by
  constructor
  · intro role h
    rcases h with rfl | rfl <;> rfl
  · intro e he
    rw [roleFiltered, if_pos (by rfl)] at he
    obtain ⟨he, hdate⟩ := mem_applyDateFilter he
    obtain ⟨he, hstatus⟩ := mem_applyStatusFilter he
    obtain ⟨he, hproj⟩ := mem_applyProjectFilter he
    obtain ⟨_, huser⟩ := mem_applyUserFilter he
    exact ⟨huser, hproj, hstatus, hdate⟩

/-- Witness for the amended C7: a FINANCE viewer with a user filter set
still gets exactly the month-filtered collection. -/
theorem elevated_filtering_admin_only_witness :
    roleFiltered UserRole.FINANCE "u1" userFilters [otherUserEntry] =
      monthFiltered userFilters [otherUserEntry] :=
  (elevated_filtering_admin_only "u1" userFilters [otherUserEntry]).1
    UserRole.FINANCE (Or.inr rfl)

end Time2Cloud
